import Mathlib

/-!
# The `cvec` Python binding of aubio (`interfaces/python/py-cvec.c`)

A shallow embedding of the C functions of `py-cvec.c` and the properties of
its array marshaling contract.

Conventions of the embedding.

* A C function that returns `NULL` / `-1` returns `Except.error`; the error
  says whether a Python exception was set (`Err.raised`), whether the function
  failed without setting one (`Err.failure`), or whether the C code would
  dereference `NULL` or read past a row-pointer array (`Err.undefined`).
* `uint_t` fields are natural numbers reduced modulo `2 ^ 32` on every
  assignment; `int` and `Py_ssize_t` values are integers, and the `int`
  variables the argument parser fills hold what the `I` format leaves in them
  (`to_int`).
* Sample memory is never read or written by `py-cvec.c`: the file only moves
  pointers around.  A pointer is a block and a byte offset; a `Heap` records
  the sample buffers handed out by the native library so far.  Structs and
  row-pointer arrays are Lean values.
* What numpy decides on its own when it builds a new array (where the data
  goes, whether the conversion is refused) is left open in `NumpyConversions`;
  the shape and type of the array it returns are modelled.
* Object and struct allocation (`tp_alloc`, `PyObject_New`, `malloc`) is
  assumed to succeed.
-/

namespace PyCvec

/-! ## Errors -/

/-- The two exception classes set by `py-cvec.c`. -/
inductive PyExc
  | ValueError
  | IndexError
deriving DecidableEq, Repr

/-- How a call can fail. -/
inductive Err
  /-- An exception set by `PyErr_SetString (exc, msg)`, then `NULL` / `-1`. -/
  | raised (exc : PyExc) (msg : String)
  /-- A `NULL` / `-1` result with no exception set by this file. -/
  | failure
  /-- The C code dereferences `NULL` or indexes outside a row-pointer array. -/
  | undefined
deriving DecidableEq, Repr

/-! ## Machine integers -/

/-- Modelled from the spec: `length` and `channels` are integers; their type
`uint_t` (a typedef of the absent `types.h` of the native library) is the C
`unsigned int` the file itself treats them as: they are passed to
`Py_BuildValue` under the `I` format (line 95) and exported as `T_INT` members
(lines 264-267).  Values stored in them are therefore reduced modulo `2 ^ 32`. -/
def UINT_MODULUS : Nat := 2 ^ 32

/-- Conversion of a non-negative value (`npy_intp`, or a literal) to `uint_t`. -/
def to_uint_t (n : Nat) : Nat := n % UINT_MODULUS

/-- Conversion of a C `int` to `uint_t`. -/
def int_to_uint_t (x : Int) : Nat := (x % (UINT_MODULUS : Int)).toNat

/-- Largest value of a C `int`. -/
def INT_MAX : Int := 2 ^ 31 - 1

/-- Smallest value of a C `int`. -/
def INT_MIN : Int := -(2 ^ 31)

/-- What the `I` format of the argument parser leaves in an `int` variable: the
Python integer is converted to `unsigned int` with no overflow check, that is
reduced modulo `2 ^ 32`, and the 32 bits are read back as a signed value. -/
def to_int (n : Int) : Int := (n + 2 ^ 31) % 2 ^ 32 - 2 ^ 31

/-- An argument as the caller passes it to the constructor: not given, a
Python integer, or an object the `I` format refuses (a call with too many
arguments or an unknown keyword fails in the parser in the same way). -/
inductive PyArg
  | absent
  | int (n : Int)
  | other
deriving DecidableEq, Repr

/-- One optional `I` unit of the format `|II`, writing through the address of
an `int` variable that holds `init`: an absent argument leaves the variable as
it is, an integer is stored by `to_int`, any other object makes the parser
fail. -/
def parse_I (init : Int) : PyArg → Option Int
  | .absent => some init
  | .int n => some (to_int n)
  | .other => none

/-- The call `PyArg_ParseTupleAndKeywords (args, kwds, "|II", kwlist, &length,
&channels)` (lines 31-32) on the two variables `length` and `channels`: their
values after the call, or `none` when the call returns 0. -/
def PyArg_ParseTupleAndKeywords (length_arg channels_arg : PyArg) (length channels : Int) :
    Option (Int × Int) :=
  match parse_I length length_arg, parse_I channels channels_arg with
  | some l, some c => some (l, c)
  | _, _ => none

/-! ## Pointers and the heap of sample buffers -/

/-- A pointer into sample memory: a buffer and a byte offset into it. -/
structure Ptr where
  block : Nat
  off : Int
deriving DecidableEq, Repr

/-- The sample buffers allocated so far, by size in bytes; buffer `i` is the
`i`-th entry. -/
structure Heap where
  blocks : List Nat
deriving DecidableEq, Repr

/-- Allocation of a fresh buffer of `nbytes` bytes. -/
def Heap.alloc (h : Heap) (nbytes : Nat) : Ptr × Heap :=
  (⟨h.blocks.length, 0⟩, ⟨h.blocks ++ [nbytes]⟩)

/-! ## The numpy C API used by the file -/

/-- The type numbers of numpy (`enum NPY_TYPES`). -/
inductive NPY_TYPES
  | NPY_BOOL | NPY_BYTE | NPY_UBYTE | NPY_SHORT | NPY_USHORT | NPY_INT | NPY_UINT
  | NPY_LONG | NPY_ULONG | NPY_LONGLONG | NPY_ULONGLONG
  | NPY_FLOAT | NPY_DOUBLE | NPY_LONGDOUBLE
  | NPY_CFLOAT | NPY_CDOUBLE | NPY_CLONGDOUBLE
  | NPY_OBJECT | NPY_STRING | NPY_UNICODE | NPY_VOID
  | NPY_DATETIME | NPY_TIMEDELTA | NPY_HALF
deriving DecidableEq, Repr

open NPY_TYPES

/-- The macro `PyTypeNum_ISFLOAT`: the real floating-point kinds. -/
def PyTypeNum_ISFLOAT : NPY_TYPES → Bool
  | NPY_FLOAT | NPY_DOUBLE | NPY_LONGDOUBLE | NPY_HALF => true
  | _ => false

/-- Item size in bytes of each type number (LP64 values; flexible types have
size 0).  Only the size of `NPY_FLOAT` is used by the file. -/
def NPY_ELSIZE : NPY_TYPES → Nat
  | NPY_BOOL | NPY_BYTE | NPY_UBYTE => 1
  | NPY_SHORT | NPY_USHORT | NPY_HALF => 2
  | NPY_INT | NPY_UINT | NPY_FLOAT => 4
  | NPY_LONG | NPY_ULONG | NPY_LONGLONG | NPY_ULONGLONG | NPY_DOUBLE => 8
  | NPY_CFLOAT | NPY_OBJECT | NPY_DATETIME | NPY_TIMEDELTA => 8
  | NPY_LONGDOUBLE | NPY_CDOUBLE => 16
  | NPY_CLONGDOUBLE => 32
  | NPY_STRING | NPY_UNICODE | NPY_VOID => 0

/-- The fields of `PyArrayObject` read by the file: data pointer, shape,
strides in bytes (one per dimension) and element type. -/
structure PyArrayObject where
  data : Ptr
  dimensions : List Nat
  strides : List Int
  type_num : NPY_TYPES
deriving DecidableEq, Repr

/-- The function `PyArray_MultiplyList`: product of a shape. -/
def PyArray_MultiplyList : List Nat → Nat
  | [] => 1
  | d :: ds => d * PyArray_MultiplyList ds

/-- The macro `PyArray_NDIM`. -/
def PyArray_NDIM (a : PyArrayObject) : Nat := a.dimensions.length

/-- The macro `PyArray_DIM (a, n)`. -/
def PyArray_DIM (a : PyArrayObject) (n : Nat) : Nat := a.dimensions.getD n 0

/-- The macro `PyArray_STRIDE (a, n)`. -/
def PyArray_STRIDE (a : PyArrayObject) (n : Nat) : Int := a.strides.getD n 0

/-- The macro `PyArray_SIZE`: total number of elements. -/
def PyArray_SIZE (a : PyArrayObject) : Nat := PyArray_MultiplyList a.dimensions

/-- The macro `PyArray_TYPE`. -/
def PyArray_TYPE (a : PyArrayObject) : NPY_TYPES := a.type_num

/-- The macro `PyArray_ISFLOAT`. -/
def PyArray_ISFLOAT (a : PyArrayObject) : Bool := PyTypeNum_ISFLOAT a.type_num

/-- The macro `PyArray_GETPTR1 (a, i)`: `data + i * strides[0]`. -/
def PyArray_GETPTR1 (a : PyArrayObject) (i : Nat) : Ptr :=
  ⟨a.data.block, a.data.off + (i : Int) * PyArray_STRIDE a 0⟩

/-- Strides of a C-contiguous array, as numpy fills them from the last axis:
`strides[i] = itemsize; itemsize *= dims[i] ? dims[i] : 1`. -/
def c_strides (elsize : Nat) : List Nat → List Int
  | [] => []
  | _ :: ds =>
    ((elsize * PyArray_MultiplyList (ds.map fun d => if d = 0 then 1 else d) : Nat) : Int)
      :: c_strides elsize ds

/-- The function `PyArray_SimpleNewFromData (nd, dims, typenum, data)`: a
C-contiguous array of shape `dims[0 .. nd)` over memory it does not own. -/
def PyArray_SimpleNewFromData (nd : Nat) (dims : List Nat) (typenum : NPY_TYPES)
    (data : Ptr) : PyArrayObject :=
  { data := data
    dimensions := dims.take nd
    strides := c_strides (NPY_ELSIZE typenum) (dims.take nd)
    type_num := typenum }

/-- The struct `cvec_t` as the file uses it: `length`, `channels`, and the row
pointers `norm` and `phas`; a `phas` row is `none` while uninitialised. -/
structure cvec_t where
  length : Nat
  channels : Nat
  norm : List Ptr
  phas : List (Option Ptr)
deriving DecidableEq, Repr

/-- The struct `Py_cvec`; `o` is `none` for a `NULL` pointer. -/
structure Py_cvec where
  o : Option cvec_t
  length : Nat
  channels : Nat
deriving DecidableEq, Repr

/-- The Python objects the entry points distinguish: a `cvec`
(`PyObject_TypeCheck`), a numpy array (`PyArray_Check`), anything else. -/
inductive PyObject
  | cvec (v : Py_cvec)
  | array (a : PyArrayObject)
  | other (tag : Nat)
deriving DecidableEq, Repr

/-- What numpy decides on its own when it builds a new array; these choices
are made outside this file and are left open. -/
structure NumpyConversions where
  /-- For `PyArray_Cast`: the data pointer of the new array, or `none` when the
  cast fails and `NULL` is returned. -/
  cast : PyArrayObject → NPY_TYPES → Option Ptr
  /-- For `PyArray_FromAny` on an array of another type: the data pointer of the
  converted array, or `none` when numpy refuses the conversion. -/
  fromArray : PyArrayObject → NPY_TYPES → Option Ptr
  /-- For `PyArray_FromAny` on an object that is not an array: the array built
  from it, or `none` for `NULL`. -/
  fromObject : PyObject → NPY_TYPES → Option PyArrayObject
  /-- For `PyArray_FromObject` on a list of arrays: the data pointer of the
  stacked array, or `none` for `NULL`. -/
  stack : List PyArrayObject → NPY_TYPES → Option Ptr

/-- The function `PyArray_Cast (a, typenum)`: a new C-contiguous array of the
requested type and of the shape of `a`, or `NULL`. -/
def PyArray_Cast (np : NumpyConversions) (a : PyArrayObject) (typenum : NPY_TYPES) :
    Option PyArrayObject :=
  (np.cast a typenum).map fun p =>
    { data := p
      dimensions := a.dimensions
      strides := c_strides (NPY_ELSIZE typenum) a.dimensions
      type_num := typenum }

/-- The function `PyArray_FromObject (list, typenum, min_depth, max_depth)` on
a list of arrays of one common shape: the rows stacked in a new array, or
`NULL` when the depth of the result is outside `[min_depth, max_depth]`. -/
def PyArray_FromObject (np : NumpyConversions) (rows : List PyArrayObject)
    (typenum : NPY_TYPES) (min_depth max_depth : Nat) : Option PyArrayObject :=
  let dims : List Nat :=
    match rows with
    | [] => [0]
    | r :: _ => rows.length :: r.dimensions
  if dims.length < min_depth ∨ max_depth < dims.length then none
  else
    (np.stack rows typenum).map fun p =>
      { data := p
        dimensions := dims
        strides := c_strides (NPY_ELSIZE typenum) dims
        type_num := typenum }

/-- Element `k` of a rank-1 array of samples, read from a memory `load`:
`*(smpl_t *) PyArray_GETPTR1 (a, k)`. -/
def PyArray_GETITEM1 {α : Type} (load : Ptr → α) (a : PyArrayObject) (k : Nat) : α :=
  load (PyArray_GETPTR1 a k)

/-! ## Build-time constants -/

/-- Modelled from the spec: `Py_default_vector_length` is a macro of
`aubio-types.h`, which is absent; the documented default is 1024. -/
def Py_default_vector_length : Nat := 1024

/-- Modelled from the spec: `Py_default_vector_channels` is a macro of
`aubio-types.h`, which is absent; the documented default is 1. -/
def Py_default_vector_channels : Nat := 1

/-- Modelled from the spec: `AUBIO_FLOAT` is a macro of `aubio-types.h`, which
is absent; it is the type number of the native float width, which the
comments and messages of the source call float32. -/
def AUBIO_FLOAT : NPY_TYPES := NPY_FLOAT

/-! ## The native constructor -/

/-- Allocation of `n` fresh sample rows of `nbytes` bytes each. -/
def new_rows : Nat → Nat → Heap → List Ptr × Heap
  | 0, _, h => ([], h)
  | n + 1, nbytes, h =>
    let r := h.alloc nbytes
    let rs := new_rows n nbytes r.2
    (r.1 :: rs.1, rs.2)

/-- Modelled from the spec: `new_cvec` belongs to the native library, which is
absent.  In owned mode `norm` and `phas` are owned by the vector and sized
exactly `channels × length`: one fresh row of `length` samples per channel for
each of them. -/
def new_cvec (h : Heap) (length channels : Nat) : Heap × Option cvec_t :=
  let n := new_rows channels (length * NPY_ELSIZE NPY_FLOAT) h
  let p := new_rows channels (length * NPY_ELSIZE NPY_FLOAT) n.2
  (p.2, some { length := length, channels := channels, norm := n.1, phas := p.1.map some })

/-! ## The functions of `py-cvec.c` -/

/-- The function `Py_cvec_new` (lines 24-63), from the arguments of the call.
The two `int` variables start at 0 and are filled by the parser; when the
parser fails the function returns `NULL` with the parser's exception.  The
object returned by `tp_alloc` is zero-filled, so `o` is `NULL`. -/
def Py_cvec_new (length_arg channels_arg : PyArg) : Except Err Py_cvec :=
  match PyArg_ParseTupleAndKeywords length_arg channels_arg 0 0 with
  | none => .error Err.failure
  | some (length, channels) => do
    let self : Py_cvec :=
      { o := none
        length := to_uint_t Py_default_vector_length
        channels := to_uint_t Py_default_vector_channels }
    let self ←
      if length > 0 then
        pure { self with length := int_to_uint_t length }
      else if length < 0 then
        throw (Err.raised PyExc.ValueError "can not use negative number of elements")
      else
        pure self
    let self ←
      if channels > 0 then
        pure { self with channels := int_to_uint_t channels }
      else if channels < 0 then
        throw (Err.raised PyExc.ValueError "can not use negative number of channels")
      else
        pure self
    return self

/-- The function `Py_cvec_init` (lines 65-74): allocates the native struct. -/
def Py_cvec_init (h : Heap) (self : Py_cvec) : Heap × Except Err Py_cvec :=
  match new_cvec h self.length self.channels with
  | (h1, none) => (h1, .error Err.failure)
  | (h1, some c) => (h1, .ok { self with o := some c })

/-- Calling the type `aubio.cvec`: the slot `tp_new` (`Py_cvec_new`), then, if
it returned an object, the slot `tp_init` (`Py_cvec_init`), as registered in
`Py_cvecType` (lines 328-330). -/
def Py_cvecType_call (h : Heap) (length_arg channels_arg : PyArg) :
    Heap × Except Err Py_cvec :=
  match Py_cvec_new length_arg channels_arg with
  | .error e => (h, .error e)
  | .ok self => Py_cvec_init h self

/-- The function `PyAubio_ArrayToCvec` (lines 110-182); `AUBIO_DO_CASTING` is
the build-time switch of the absent `aubio-types.h`. -/
def PyAubio_ArrayToCvec (AUBIO_DO_CASTING : Bool) (np : NumpyConversions)
    (input : PyObject) : Except Err Py_cvec :=
  match input with
  | .cvec vec => .ok vec
  | .array inp =>
    if PyArray_NDIM inp = 0 then
      .error (Err.raised PyExc.ValueError "input array is a scalar")
    else if PyArray_NDIM inp > 2 then
      .error (Err.raised PyExc.ValueError "input array has more than two dimensions")
    else
      let converted : Except Err PyArrayObject :=
        if !PyArray_ISFLOAT inp then
          .error (Err.raised PyExc.ValueError "input array should be float")
        else if PyArray_TYPE inp ≠ AUBIO_FLOAT then
          if AUBIO_DO_CASTING then
            match PyArray_Cast np inp AUBIO_FLOAT with
            | none => .error (Err.raised PyExc.IndexError "failed converting to NPY_FLOAT")
            | some array => .ok array
          else
            .error (Err.raised PyExc.ValueError "input array should be float32")
        else
          .ok inp
      match converted with
      | .error e => .error e
      | .ok array =>
        let channels : Nat :=
          if PyArray_NDIM array = 1 then to_uint_t 1 else to_uint_t (PyArray_DIM array 0)
        let length : Nat :=
          if PyArray_NDIM array = 1 then to_uint_t (PyArray_SIZE array)
          else to_uint_t (PyArray_DIM array 1)
        let o : cvec_t :=
          { length := length
            channels := channels
            norm := (List.range channels).map fun i => PyArray_GETPTR1 array i
            phas := List.replicate channels none }
        .ok { o := some o, length := length, channels := channels }
  | .other _ =>
    .error (Err.raised PyExc.ValueError "can only accept array or cvec as input")

/-- The function `PyAubio_CvecToArray` (lines 184-204). -/
def PyAubio_CvecToArray (np : NumpyConversions) (self : Py_cvec) :
    Except Err PyArrayObject :=
  match self.o with
  | none => .error Err.undefined
  | some o =>
    if self.channels = 1 then
      match o.norm[0]? with
      | none => .error Err.undefined
      | some row => .ok (PyArray_SimpleNewFromData 1 [self.length, 1] NPY_FLOAT row)
    else
      let concat : Option (List PyArrayObject) :=
        (List.range self.channels).mapM fun i =>
          (o.norm[i]?).map fun row => PyArray_SimpleNewFromData 1 [self.length, 1] NPY_FLOAT row
      match concat with
      | none => .error Err.undefined
      | some rows =>
        match PyArray_FromObject np rows NPY_FLOAT 2 2 with
        | none => .error Err.failure
        | some array => .ok array

/-- The function `Py_cvec_getchannels` (lines 206-210). -/
def Py_cvec_getchannels (self : Py_cvec) : Int := (self.channels : Int)

/-- The function `Py_cvec_getitem` (lines 212-225). -/
def Py_cvec_getitem (self : Py_cvec) (index : Int) : Except Err PyArrayObject :=
  if index < 0 ∨ index ≥ (self.channels : Int) then
    .error (Err.raised PyExc.IndexError "no such channel")
  else
    match self.o with
    | none => .error Err.undefined
    | some o =>
      match o.norm[index.toNat]? with
      | none => .error Err.undefined
      | some row => .ok (PyArray_SimpleNewFromData 1 [self.length, 1] NPY_FLOAT row)

/-- The macro `PyArray_FROM_OT (o, typenum)`, that is `PyArray_FromAny` with no
requirement flag: an array that already has the requested type is returned as it
is; an array of another type is converted into a new C-contiguous array of the
same shape, or refused; any other object goes through numpy's own conversion. -/
def PyArray_FROM_OT (np : NumpyConversions) (o : PyObject) (typenum : NPY_TYPES) :
    Option PyArrayObject :=
  match o with
  | .array a =>
    if a.type_num = typenum then some a
    else
      (np.fromArray a typenum).map fun p =>
        { data := p
          dimensions := a.dimensions
          strides := c_strides (NPY_ELSIZE typenum) a.dimensions
          type_num := typenum }
  | _ => np.fromObject o typenum

/-- The function `Py_cvec_setitem` (lines 227-260): the vector after the call
and the status (`.ok ()` for 0, an error for -1). -/
def Py_cvec_setitem (np : NumpyConversions)
    (self : Py_cvec) (index : Int) (o : PyObject) : Py_cvec × Except Err Unit :=
  if index < 0 ∨ index ≥ (self.channels : Int) then
    (self, .error (Err.raised PyExc.IndexError "no such channel"))
  else
    match PyArray_FROM_OT np o NPY_FLOAT with
    | none => (self, .error (Err.raised PyExc.ValueError "should be an array of float"))
    | some array =>
      if PyArray_NDIM array ≠ 1 then
        (self, .error (Err.raised PyExc.ValueError "should be a one-dimensional array"))
      else if (PyArray_SIZE array : Int) ≠ (self.length : Int) then
        (self, .error (Err.raised PyExc.ValueError
          "should be an array of same length as target cvec"))
      else
        match self.o with
        | none => (self, .error Err.undefined)
        | some c =>
          if index.toNat < c.norm.length then
            ({ self with
                o := some { c with norm := c.norm.set index.toNat (PyArray_GETPTR1 array 0) } },
              .ok ())
          else (self, .error Err.undefined)

/-- The representation invariant of a usable `Py_cvec`: the native struct is
allocated and has one `norm` row per channel of the wrapper. -/
def Py_cvec.valid (v : Py_cvec) : Prop :=
  match v.o with
  | none => False
  | some c => c.norm.length = v.channels

instance (v : Py_cvec) : Decidable v.valid := by
  unfold Py_cvec.valid
  cases v.o <;> infer_instance

/-- The vector `PyAubio_ArrayToCvec` builds over the array `array` (lines
152-171). -/
def cvec_of_array (array : PyArrayObject) : Py_cvec :=
  let channels : Nat :=
    if PyArray_NDIM array = 1 then to_uint_t 1 else to_uint_t (PyArray_DIM array 0)
  let length : Nat :=
    if PyArray_NDIM array = 1 then to_uint_t (PyArray_SIZE array)
    else to_uint_t (PyArray_DIM array 1)
  { o := some
      { length := length
        channels := channels
        norm := (List.range channels).map fun i => PyArray_GETPTR1 array i
        phas := List.replicate channels none }
    length := length
    channels := channels }

/-- A numpy that refuses every conversion, for the concrete instances below. -/
def numpy_refusing : NumpyConversions :=
  { cast := fun _ _ => none
    fromArray := fun _ _ => none
    fromObject := fun _ _ => none
    stack := fun _ _ => none }

/-- A numpy whose `PyArray_Cast` puts the new array at the start of block 9 and
that refuses every other conversion, for the concrete instances below. -/
def numpy_casting : NumpyConversions :=
  { cast := fun _ _ => some ⟨9, 0⟩
    fromArray := fun _ _ => none
    fromObject := fun _ _ => none
    stack := fun _ _ => none }

/-! ## Auxiliary facts -/

theorem to_uint_t_of_lt {n : Nat} (h : n < 2 ^ 32) : to_uint_t n = n := by
  unfold to_uint_t UINT_MODULUS
  exact Nat.mod_eq_of_lt h

theorem int_to_uint_t_of_range {x : Int} (h0 : 0 ≤ x) (h1 : x ≤ INT_MAX) :
    ((int_to_uint_t x : Nat) : Int) = x := by
  unfold int_to_uint_t UINT_MODULUS
  unfold INT_MAX at h1
  have h2 : x % ((2 ^ 32 : Nat) : Int) = x := Int.emod_eq_of_lt h0 (by norm_num; omega)
  rw [h2]
  exact Int.toNat_of_nonneg h0

theorem new_rows_length (n nbytes : Nat) (h : Heap) : (new_rows n nbytes h).1.length = n := by
  induction n generalizing h with
  | zero => simp [new_rows]
  | succ k ih => simp [new_rows, ih]

/-- The value `to_int` stores is a C `int`. -/
theorem to_int_range (n : Int) : INT_MIN ≤ to_int n ∧ to_int n ≤ INT_MAX := by
  unfold to_int INT_MIN INT_MAX
  have h1 := Int.emod_nonneg (n + 2 ^ 31) (b := 2 ^ 32) (by norm_num)
  have h2 := Int.emod_lt_of_pos (n + 2 ^ 31) (b := 2 ^ 32) (by norm_num)
  constructor <;> omega

/-- An integer that is a C `int` is stored as it is. -/
theorem to_int_of_range {n : Int} (h0 : INT_MIN ≤ n) (h1 : n ≤ INT_MAX) : to_int n = n := by
  unfold INT_MIN at h0
  unfold INT_MAX at h1
  unfold to_int
  rw [Int.emod_eq_of_lt (by omega) (by omega)]
  omega

/-- The variables the parser fills hold C `int` values. -/
theorem PyArg_ParseTupleAndKeywords_range (la ca : PyArg) (l c : Int)
    (hp : PyArg_ParseTupleAndKeywords la ca 0 0 = some (l, c)) :
    (INT_MIN ≤ l ∧ l ≤ INT_MAX) ∧ (INT_MIN ≤ c ∧ c ≤ INT_MAX) := by
  have hzero : INT_MIN ≤ 0 ∧ (0 : Int) ≤ INT_MAX := by
    unfold INT_MIN INT_MAX
    constructor <;> norm_num
  unfold PyArg_ParseTupleAndKeywords at hp
  cases la <;> cases ca <;> simp [parse_I] at hp <;> obtain ⟨rfl, rfl⟩ := hp <;>
    exact ⟨by first | exact hzero | exact to_int_range _,
      by first | exact hzero | exact to_int_range _⟩

/-- The parser succeeds on integers and absent arguments. -/
theorem PyArg_ParseTupleAndKeywords_some (la ca : PyArg) (hl : la ≠ .other)
    (hc : ca ≠ .other) : ∃ l c, PyArg_ParseTupleAndKeywords la ca 0 0 = some (l, c) := by
  cases la <;> cases ca <;>
    first
    | exact ⟨_, _, rfl⟩
    | exact absurd rfl hl
    | exact absurd rfl hc

/-- The parser with an integer that is a C `int` in first position. -/
theorem PyArg_ParseTupleAndKeywords_left {n : Int} (h0 : INT_MIN ≤ n) (h1 : n ≤ INT_MAX)
    (arg : PyArg) (hother : arg ≠ .other) :
    ∃ c, PyArg_ParseTupleAndKeywords (.int n) arg 0 0 = some (n, c) := by
  cases arg with
  | other => exact absurd rfl hother
  | absent => exact ⟨0, by simp [PyArg_ParseTupleAndKeywords, parse_I, to_int_of_range h0 h1]⟩
  | int m =>
    exact ⟨to_int m, by simp [PyArg_ParseTupleAndKeywords, parse_I, to_int_of_range h0 h1]⟩

/-- The parser with an integer that is a C `int` in second position. -/
theorem PyArg_ParseTupleAndKeywords_right {n : Int} (h0 : INT_MIN ≤ n) (h1 : n ≤ INT_MAX)
    (arg : PyArg) (hother : arg ≠ .other) :
    ∃ l, PyArg_ParseTupleAndKeywords arg (.int n) 0 0 = some (l, n) := by
  cases arg with
  | other => exact absurd rfl hother
  | absent => exact ⟨0, by simp [PyArg_ParseTupleAndKeywords, parse_I, to_int_of_range h0 h1]⟩
  | int m =>
    exact ⟨to_int m, by simp [PyArg_ParseTupleAndKeywords, parse_I, to_int_of_range h0 h1]⟩

/-- When an argument is not an integer the parser fails and `Py_cvec_new`
returns `NULL` with the parser's exception. -/
theorem Py_cvec_new_of_other (la ca : PyArg) (hother : la = .other ∨ ca = .other) :
    Py_cvec_new la ca = .error Err.failure := by
  have hp : PyArg_ParseTupleAndKeywords la ca 0 0 = none := by
    unfold PyArg_ParseTupleAndKeywords
    cases la <;> cases ca <;> simp [parse_I] at hother ⊢
  unfold Py_cvec_new
  rw [hp]

/-- What `Py_cvec_new` returns when neither parsed variable is negative. -/
theorem Py_cvec_new_of_nonneg (la ca : PyArg) (length channels : Int)
    (hp : PyArg_ParseTupleAndKeywords la ca 0 0 = some (length, channels))
    (hl : 0 ≤ length) (hc : 0 ≤ channels) :
    Py_cvec_new la ca = .ok
      { o := none
        length := if length > 0 then int_to_uint_t length
          else to_uint_t Py_default_vector_length
        channels := if channels > 0 then int_to_uint_t channels
          else to_uint_t Py_default_vector_channels } := by
  have hl2 : ¬ length < 0 := not_lt.mpr hl
  have hc2 : ¬ channels < 0 := not_lt.mpr hc
  unfold Py_cvec_new
  rw [hp]
  by_cases h1 : length > 0 <;> by_cases h2 : channels > 0 <;>
    simp [h1, h2, hl2, hc2, bind, Except.bind, pure, Except.pure]

/-- What `Py_cvec_new` returns when the parsed `length` is negative. -/
theorem Py_cvec_new_of_neg_length (la ca : PyArg) (length channels : Int)
    (hp : PyArg_ParseTupleAndKeywords la ca 0 0 = some (length, channels))
    (hl : length < 0) :
    Py_cvec_new la ca =
      .error (Err.raised PyExc.ValueError "can not use negative number of elements") := by
  have h1 : ¬ length > 0 := by omega
  unfold Py_cvec_new
  rw [hp]
  simp [h1, hl, bind, Except.bind, throw, throwThe, MonadExceptOf.throw]

/-- What `Py_cvec_new` returns when the parsed `channels` is negative next to a
non-negative `length`. -/
theorem Py_cvec_new_of_neg_channels (la ca : PyArg) (length channels : Int)
    (hp : PyArg_ParseTupleAndKeywords la ca 0 0 = some (length, channels))
    (hl : 0 ≤ length) (hc : channels < 0) :
    Py_cvec_new la ca =
      .error (Err.raised PyExc.ValueError "can not use negative number of channels") := by
  have hl2 : ¬ length < 0 := not_lt.mpr hl
  have h2 : ¬ channels > 0 := by omega
  unfold Py_cvec_new
  rw [hp]
  by_cases h1 : length > 0 <;>
    simp [h1, h2, hl2, hc, bind, Except.bind, pure, Except.pure, throw, throwThe,
      MonadExceptOf.throw]

/-- The parser on two integers that are C `int` values. -/
theorem PyArg_ParseTupleAndKeywords_int {a b : Int} (ha0 : INT_MIN ≤ a) (ha1 : a ≤ INT_MAX)
    (hb0 : INT_MIN ≤ b) (hb1 : b ≤ INT_MAX) :
    PyArg_ParseTupleAndKeywords (.int a) (.int b) 0 0 = some (a, b) := by
  simp [PyArg_ParseTupleAndKeywords, parse_I, to_int_of_range ha0 ha1, to_int_of_range hb0 hb1]

/-- The view built by `Py_cvec_getitem` and `PyAubio_CvecToArray`: rank 1, `n`
elements, contiguous `NPY_FLOAT` samples starting at `row`. -/
theorem PyArray_SimpleNewFromData_view (n : Nat) (row : Ptr) :
    PyArray_NDIM (PyArray_SimpleNewFromData 1 [n, 1] NPY_FLOAT row) = 1 ∧
    PyArray_SIZE (PyArray_SimpleNewFromData 1 [n, 1] NPY_FLOAT row) = n ∧
    (PyArray_SimpleNewFromData 1 [n, 1] NPY_FLOAT row).data = row ∧
    PyArray_STRIDE (PyArray_SimpleNewFromData 1 [n, 1] NPY_FLOAT row) 0 = 4 := by
  simp [PyArray_SimpleNewFromData, PyArray_NDIM, PyArray_SIZE, PyArray_MultiplyList,
    PyArray_STRIDE, c_strides, NPY_ELSIZE]

/-- On a valid vector, an index inside `[0, channels)` selects a row and
`Py_cvec_getitem` returns the view over it. -/
theorem Py_cvec_getitem_of_valid (v : Py_cvec) (hv : v.valid) (i : Int) (h0 : 0 ≤ i)
    (h1 : i < (v.channels : Int)) :
    ∃ c row, v.o = some c ∧ c.norm[i.toNat]? = some row ∧
      Py_cvec_getitem v i = .ok (PyArray_SimpleNewFromData 1 [v.length, 1] NPY_FLOAT row) := by
  unfold Py_cvec.valid at hv
  cases ho : v.o with
  | none => simp [ho] at hv
  | some c =>
    simp only [ho] at hv
    have hlt : i.toNat < c.norm.length := by
      rw [hv]
      omega
    refine ⟨c, c.norm[i.toNat], rfl, List.getElem?_eq_getElem hlt, ?_⟩
    have hcond : ¬ (i < 0 ∨ i ≥ (v.channels : Int)) := by omega
    unfold Py_cvec_getitem
    simp only [hcond, if_false, ho, List.getElem?_eq_getElem hlt]

/-- The vector built by `Py_cvec_init` is valid. -/
theorem Py_cvec_init_valid (h : Heap) (self : Py_cvec) :
    ∃ h1 c, Py_cvec_init h self = (h1, .ok { self with o := some c }) ∧
      Py_cvec.valid { self with o := some c } := by
  unfold Py_cvec_init new_cvec
  refine ⟨_, _, rfl, ?_⟩
  simp [Py_cvec.valid, new_rows_length]

/-- The pointer to element 0 is the data pointer, whatever the stride. -/
theorem PyArray_GETPTR1_zero (a : PyArrayObject) : PyArray_GETPTR1 a 0 = a.data := by
  simp [PyArray_GETPTR1]

/-- An array that already has the requested type is returned by
`PyArray_FROM_OT` itself. -/
theorem PyArray_FROM_OT_same (np : NumpyConversions)
    (a : PyArrayObject) : PyArray_FROM_OT np (.array a) a.type_num = some a := by
  simp [PyArray_FROM_OT]

/-- The array `PyArray_FROM_OT` returns for an array has the shape of that
array. -/
theorem PyArray_FROM_OT_dimensions (np : NumpyConversions) (a r : PyArrayObject)
    (typenum : NPY_TYPES) (hr : PyArray_FROM_OT np (.array a) typenum = some r) :
    r.dimensions = a.dimensions := by
  unfold PyArray_FROM_OT at hr
  by_cases hty : a.type_num = typenum
  · simp only [hty, if_true, Option.some.injEq] at hr
    rw [← hr]
  · simp only [hty, if_false, Option.map_eq_some'] at hr
    obtain ⟨p, -, hp⟩ := hr
    rw [← hp]

/-- The successful path of `Py_cvec_setitem`: row `index` is rebound to the
data pointer of the array and nothing else changes. -/
theorem Py_cvec_setitem_ok (np : NumpyConversions)
    (v : Py_cvec) (c : cvec_t) (i : Int) (arr : PyArrayObject)
    (ho : v.o = some c) (hlen : c.norm.length = v.channels)
    (hi0 : 0 ≤ i) (hi1 : i < (v.channels : Int))
    (hty : arr.type_num = NPY_FLOAT) (hnd : PyArray_NDIM arr = 1)
    (hsz : PyArray_SIZE arr = v.length) :
    Py_cvec_setitem np v i (.array arr) =
      ({ v with o := some { c with norm := c.norm.set i.toNat arr.data } }, .ok ()) := by
  have hcond : ¬ (i < 0 ∨ i ≥ (v.channels : Int)) := by omega
  have hlt : i.toNat < c.norm.length := by
    rw [hlen]
    omega
  have hconv : PyArray_FROM_OT np (.array arr) NPY_FLOAT = some arr := by
    rw [← hty]
    exact PyArray_FROM_OT_same np arr
  unfold Py_cvec_setitem
  simp only [hcond, if_false, hconv, hnd, hsz, ho, hlt, if_true, ne_eq, not_true_eq_false,
    PyArray_GETPTR1_zero]

/-- Every failing call of `Py_cvec_setitem` returns the vector it was given,
and every call keeps `length` and `channels`. -/
theorem Py_cvec_setitem_frame (np : NumpyConversions)
    (v : Py_cvec) (i : Int) (o : PyObject) :
    (Py_cvec_setitem np v i o).1.length = v.length ∧
    (Py_cvec_setitem np v i o).1.channels = v.channels ∧
    ((Py_cvec_setitem np v i o).2 ≠ .ok () → (Py_cvec_setitem np v i o).1 = v) := by
  unfold Py_cvec_setitem
  split
  · simp
  · split
    · simp
    · split
      · simp
      · split
        · simp
        · split
          · simp
          · split <;> simp

/-- The call `Py_cvec_setitem` keeps a valid vector valid. -/
theorem Py_cvec_setitem_valid (np : NumpyConversions) (v : Py_cvec) (i : Int) (o : PyObject)
    (hv : v.valid) : (Py_cvec_setitem np v i o).1.valid := by
  unfold Py_cvec_setitem
  split
  · exact hv
  · split
    · exact hv
    · split
      · exact hv
      · split
        · exact hv
        · split
          · exact hv
          · rename_i c hc
            split
            · simp only [Py_cvec.valid, hc] at hv
              simp [Py_cvec.valid, hv]
            · exact hv

/-- An array of rank 1 or 2 whose type is `AUBIO_FLOAT` is adapted in place,
whatever the casting switch and whatever numpy would do: nothing is converted. -/
theorem PyAubio_ArrayToCvec_native (cast : Bool) (np : NumpyConversions) (a : PyArrayObject)
    (hnd : PyArray_NDIM a = 1 ∨ PyArray_NDIM a = 2) (hty : PyArray_TYPE a = AUBIO_FLOAT) :
    PyAubio_ArrayToCvec cast np (.array a) = .ok (cvec_of_array a) := by
  have h0 : ¬ PyArray_NDIM a = 0 := by omega
  have h2 : ¬ PyArray_NDIM a > 2 := by omega
  have hfl : PyArray_ISFLOAT a = true := by
    unfold PyArray_TYPE AUBIO_FLOAT at hty
    simp [PyArray_ISFLOAT, hty, PyTypeNum_ISFLOAT]
  unfold PyAubio_ArrayToCvec cvec_of_array
  simp [h0, h2, hfl, hty]

/-- Every accepted array yields the vector built over an array of the same
shape: the input itself, or its cast. -/
theorem PyAubio_ArrayToCvec_accepted (cast : Bool) (np : NumpyConversions)
    (a : PyArrayObject) (v : Py_cvec)
    (hacc : PyAubio_ArrayToCvec cast np (.array a) = .ok v) :
    (PyArray_NDIM a = 1 ∨ PyArray_NDIM a = 2) ∧
    ∃ array, array.dimensions = a.dimensions ∧ v = cvec_of_array array := by
  unfold PyAubio_ArrayToCvec at hacc
  by_cases h0 : PyArray_NDIM a = 0
  · simp [h0] at hacc
  by_cases h2 : PyArray_NDIM a > 2
  · simp [h0, h2] at hacc
  refine ⟨by omega, ?_⟩
  by_cases hfl : PyArray_ISFLOAT a = true
  · by_cases hty : PyArray_TYPE a = AUBIO_FLOAT
    · simp [h0, h2, hfl, hty] at hacc
      exact ⟨a, rfl, by rw [← hacc]; rfl⟩
    · cases cast with
      | false => simp [h0, h2, hfl, hty] at hacc
      | true =>
        cases hc : np.cast a AUBIO_FLOAT with
        | none => simp [h0, h2, hfl, hty, PyArray_Cast, hc] at hacc
        | some p =>
          simp [h0, h2, hfl, hty, PyArray_Cast, hc] at hacc
          exact ⟨⟨p, a.dimensions, c_strides (NPY_ELSIZE AUBIO_FLOAT) a.dimensions,
            AUBIO_FLOAT⟩, rfl, by rw [← hacc]; rfl⟩
  · simp [h0, h2, hfl] at hacc

/-- Shape of the vector built over an array whose dimensions fit `uint_t`. -/
theorem cvec_of_array_shape (array : PyArrayObject)
    (hfit : ∀ d ∈ array.dimensions, d < 2 ^ 32) :
    (PyArray_NDIM array = 1 →
      (cvec_of_array array).channels = 1 ∧
      (cvec_of_array array).length = PyArray_SIZE array) ∧
    (PyArray_NDIM array = 2 →
      (cvec_of_array array).channels = PyArray_DIM array 0 ∧
      (cvec_of_array array).length = PyArray_DIM array 1) := by
  constructor
  · intro h1
    obtain ⟨data, dims, strides, ty⟩ := array
    match dims, h1, hfit with
    | [d], _, hfit =>
      have hd : d < 2 ^ 32 := hfit d (by simp)
      have hone : to_uint_t 1 = 1 := to_uint_t_of_lt (by norm_num)
      simp [cvec_of_array, PyArray_NDIM, PyArray_SIZE, PyArray_MultiplyList,
        to_uint_t_of_lt hd, hone]
  · intro h2
    obtain ⟨data, dims, strides, ty⟩ := array
    match dims, h2, hfit with
    | [d0, d1], _, hfit =>
      have hd0 : d0 < 2 ^ 32 := hfit d0 (by simp)
      have hd1 : d1 < 2 ^ 32 := hfit d1 (by simp)
      simp [cvec_of_array, PyArray_NDIM, PyArray_DIM, to_uint_t_of_lt hd0,
        to_uint_t_of_lt hd1]

/-- The vector built over an array is valid. -/
theorem cvec_of_array_valid (array : PyArrayObject) : (cvec_of_array array).valid := by
  simp [cvec_of_array, Py_cvec.valid]

/-- A single-channel vector built over a rank-1 array of fewer than `2 ^ 32`
elements converts back to the contiguous view at the data pointer. -/
theorem PyAubio_CvecToArray_of_rank1 (np : NumpyConversions) (A : PyArrayObject)
    (hnd : PyArray_NDIM A = 1) (hsz : PyArray_SIZE A < 2 ^ 32) :
    PyAubio_CvecToArray np (cvec_of_array A) =
      .ok (PyArray_SimpleNewFromData 1 [PyArray_SIZE A, 1] NPY_FLOAT A.data) := by
  have hone : to_uint_t 1 = 1 := to_uint_t_of_lt (by norm_num)
  simp [PyAubio_CvecToArray, cvec_of_array, hnd, hone, to_uint_t_of_lt hsz,
    PyArray_GETPTR1_zero]

/-- Reading element `k` of the contiguous `NPY_FLOAT` view at `p` is reading
the sample 4 `k` bytes after `p`. -/
theorem PyArray_GETPTR1_view (n : Nat) (p : Ptr) (k : Nat) :
    PyArray_GETPTR1 (PyArray_SimpleNewFromData 1 [n, 1] NPY_FLOAT p) k =
      ⟨p.block, p.off + (k : Int) * 4⟩ := by
  simp [PyArray_GETPTR1, PyArray_SimpleNewFromData, PyArray_STRIDE, c_strides, NPY_ELSIZE,
    PyArray_MultiplyList]

/-- Every vector `PyAubio_ArrayToCvec` returns for an array is valid. -/
theorem PyAubio_ArrayToCvec_valid (cast : Bool) (np : NumpyConversions) (a : PyArrayObject)
    (v : Py_cvec) (hacc : PyAubio_ArrayToCvec cast np (.array a) = .ok v) : v.valid := by
  obtain ⟨-, array, -, hv⟩ := PyAubio_ArrayToCvec_accepted cast np a v hacc
  rw [hv]
  exact cvec_of_array_valid array

/-- Every vector returned by calling the type is valid. -/
theorem Py_cvecType_call_valid (h h1 : Heap) (la ca : PyArg) (v : Py_cvec)
    (hcall : Py_cvecType_call h la ca = (h1, .ok v)) : v.valid := by
  unfold Py_cvecType_call at hcall
  cases hnew : Py_cvec_new la ca with
  | error e => simp [hnew] at hcall
  | ok self =>
    simp only [hnew] at hcall
    obtain ⟨h2, c, hinit, hvalid⟩ := Py_cvec_init_valid h self
    rw [hinit] at hcall
    simp only [Prod.mk.injEq, Except.ok.injEq] at hcall
    rw [← hcall.2]
    exact hvalid

/-- Shape of the vector returned for an accepted array whose dimensions fit
`uint_t`. -/
theorem Py_cvec_shape_of_accepted (cast : Bool) (np : NumpyConversions) (a : PyArrayObject)
    (v : Py_cvec) (hacc : PyAubio_ArrayToCvec cast np (.array a) = .ok v)
    (hfit : ∀ d ∈ a.dimensions, d < 2 ^ 32) :
    (PyArray_NDIM a = 1 → v.channels = 1 ∧ v.length = PyArray_SIZE a) ∧
    (PyArray_NDIM a = 2 → v.channels = PyArray_DIM a 0 ∧ v.length = PyArray_DIM a 1) := by
  obtain ⟨-, array, hdims, hv⟩ := PyAubio_ArrayToCvec_accepted cast np a v hacc
  have hshape := cvec_of_array_shape array (by rw [hdims]; exact hfit)
  subst hv
  simp only [PyArray_NDIM, PyArray_SIZE, PyArray_DIM, hdims] at hshape
  exact hshape

/-! ## The constructor -/

/-- C8 (as stated, refuted): `length = 2 ^ 31` is positive, yet it is stored in
the `int` variable as `-(2 ^ 31)` and the call fails with a `ValueError`;
`length = 2 ^ 32` is stored as 0 and the vector returned has the default
length 1024. -/
theorem Py_cvecType_call_wrap_counterexample :
    (∃ msg, Py_cvecType_call ⟨[]⟩ (.int (2 ^ 31)) (.int 1) =
      (⟨[]⟩, .error (Err.raised PyExc.ValueError msg))) ∧
    (∃ h1 v, Py_cvecType_call ⟨[]⟩ (.int (2 ^ 32)) (.int 1) = (h1, .ok v) ∧
      v.length = 1024 ∧ (v.length : Int) ≠ 2 ^ 32) :=
  ⟨⟨"can not use negative number of elements", by rfl⟩,
    ⟨⟨[4096, 4096]⟩, ⟨some ⟨1024, 1, [⟨0, 0⟩], [some ⟨1, 0⟩]⟩, 1024, 1⟩,
      by rfl, by rfl, by decide⟩⟩

/-- C8 (amended): for positive `length` and `channels` that fit the C `int`
they are parsed into (at most `2 ^ 31 - 1`), calling the type (`Py_cvec_new`,
then `Py_cvec_init`) yields a vector `v` with `v.length = length` and
`v.channels = channels`, `Py_cvec_getchannels v` is `channels`, and for every
`i` with `0 ≤ i < channels`, `Py_cvec_getitem v i` succeeds and returns a
rank-1 view of `length` elements. -/
theorem Py_cvecType_call_owned (h : Heap) (length channels : Int)
    (hl : 0 < length) (hl2 : length ≤ INT_MAX) (hc : 0 < channels) (hc2 : channels ≤ INT_MAX) :
    ∃ h1 v, Py_cvecType_call h (.int length) (.int channels) = (h1, .ok v) ∧
      (v.length : Int) = length ∧ (v.channels : Int) = channels ∧
      Py_cvec_getchannels v = channels ∧
      ∀ i : Int, 0 ≤ i → i < channels →
        ∃ a, Py_cvec_getitem v i = .ok a ∧ PyArray_NDIM a = 1 ∧
          (PyArray_SIZE a : Int) = length := by
  have hmin : INT_MIN ≤ 0 := by unfold INT_MIN; norm_num
  have hp := PyArg_ParseTupleAndKeywords_int (le_trans hmin (le_of_lt hl)) hl2
    (le_trans hmin (le_of_lt hc)) hc2
  have hnew := Py_cvec_new_of_nonneg _ _ length channels hp (le_of_lt hl) (le_of_lt hc)
  simp only [gt_iff_lt, hl, hc, if_true] at hnew
  obtain ⟨h1, c, hinit, hvalid⟩ := Py_cvec_init_valid h
    { o := none, length := int_to_uint_t length, channels := int_to_uint_t channels }
  have hL := int_to_uint_t_of_range (le_of_lt hl) hl2
  have hC := int_to_uint_t_of_range (le_of_lt hc) hc2
  refine ⟨h1, (⟨some c, int_to_uint_t length, int_to_uint_t channels⟩ : Py_cvec),
    ?_, hL, hC, ?_, ?_⟩
  · unfold Py_cvecType_call
    rw [hnew]
    exact hinit
  · unfold Py_cvec_getchannels
    exact hC
  · intro i hi0 hi1
    obtain ⟨c1, row, -, -, hget⟩ :=
      Py_cvec_getitem_of_valid _ hvalid i hi0 (by simpa [hC] using hi1)
    refine ⟨_, hget, (PyArray_SimpleNewFromData_view _ row).1, ?_⟩
    rw [(PyArray_SimpleNewFromData_view _ row).2.1]
    exact hL

/-- Witness of C8 (amended) at `length = 4`, `channels = 2`. -/
theorem Py_cvecType_call_owned_witness :
    ∃ h1 v, Py_cvecType_call ⟨[]⟩ (.int 4) (.int 2) = (h1, .ok v) ∧
      (v.length : Int) = 4 ∧ (v.channels : Int) = 2 ∧
      Py_cvec_getchannels v = 2 ∧
      ∀ i : Int, 0 ≤ i → i < 2 →
        ∃ a, Py_cvec_getitem v i = .ok a ∧ PyArray_NDIM a = 1 ∧
          (PyArray_SIZE a : Int) = 4 :=
  Py_cvecType_call_owned ⟨[]⟩ 4 2 (by decide) (by simp [INT_MAX]) (by decide)
    (by simp [INT_MAX])

/-- C9 (as stated, refuted): next to `length = 0`, the positive
`channels = 2 ^ 31` makes `Py_cvec_new` fail with a `ValueError`, and the
positive `channels = 2 ^ 32 + 5` is not kept as given: the vector has 5
channels. -/
theorem Py_cvec_new_zero_wrap_counterexample :
    (∃ msg, Py_cvec_new (.int 0) (.int (2 ^ 31)) =
      .error (Err.raised PyExc.ValueError msg)) ∧
    (∃ v, Py_cvec_new (.int 0) (.int (2 ^ 32 + 5)) = .ok v ∧
      v.channels = 5 ∧ (v.channels : Int) ≠ 2 ^ 32 + 5) :=
  ⟨⟨"can not use negative number of channels", by rfl⟩,
    ⟨⟨none, 1024, 5⟩, by rfl, by rfl, by decide⟩⟩

/-- C9 (amended): `Py_cvec_new` with `length = 0` does not fail and yields
`Py_default_vector_length` (1024), and with `channels = 0` does not fail and
yields `Py_default_vector_channels` (1); the other argument `n`, any
non-negative integer that fits a C `int` (at most `2 ^ 31 - 1`), is resolved on
its own: kept as given when positive, replaced by its own default when zero.
Arguments that are not given behave as zeros. -/
theorem Py_cvec_new_zero_defaults (n : Int) (h0 : 0 ≤ n) (h1 : n ≤ INT_MAX) :
    (∃ v, Py_cvec_new (.int 0) (.int n) = .ok v ∧ v.length = Py_default_vector_length ∧
      (v.channels : Int) = if n = 0 then (Py_default_vector_channels : Int) else n) ∧
    (∃ v, Py_cvec_new (.int n) (.int 0) = .ok v ∧ v.channels = Py_default_vector_channels ∧
      (v.length : Int) = if n = 0 then (Py_default_vector_length : Int) else n) ∧
    Py_cvec_new .absent .absent =
      .ok ⟨none, Py_default_vector_length, Py_default_vector_channels⟩ ∧
    Py_default_vector_length = 1024 ∧ Py_default_vector_channels = 1 := by
  have hmin : INT_MIN ≤ 0 := by unfold INT_MIN; norm_num
  have hmax : (0 : Int) ≤ INT_MAX := by unfold INT_MAX; norm_num
  have hn := int_to_uint_t_of_range h0 h1
  have hdl : to_uint_t Py_default_vector_length = Py_default_vector_length := by decide
  have hdc : to_uint_t Py_default_vector_channels = Py_default_vector_channels := by decide
  have hp0n := PyArg_ParseTupleAndKeywords_int hmin hmax (le_trans hmin h0) h1
  have hpn0 := PyArg_ParseTupleAndKeywords_int (le_trans hmin h0) h1 hmin hmax
  refine ⟨⟨_, Py_cvec_new_of_nonneg _ _ 0 n hp0n le_rfl h0, ?_, ?_⟩,
    ⟨_, Py_cvec_new_of_nonneg _ _ n 0 hpn0 h0 le_rfl, ?_, ?_⟩, by rfl, rfl, rfl⟩
  · simp [hdl]
  · by_cases hz : n = 0
    · simp [hz, hdc]
    · have hpos : n > 0 := by omega
      simp [hz, hpos, hn]
  · simp [hdc]
  · by_cases hz : n = 0
    · simp [hz, hdl]
    · have hpos : n > 0 := by omega
      simp [hz, hpos, hn]

/-- Witness of C9 (amended) with the other argument equal to 4. -/
theorem Py_cvec_new_zero_defaults_witness :
    (∃ v, Py_cvec_new (.int 0) (.int 4) = .ok v ∧ v.length = Py_default_vector_length ∧
      (v.channels : Int) = if (4 : Int) = 0 then (Py_default_vector_channels : Int) else 4) ∧
    (∃ v, Py_cvec_new (.int 4) (.int 0) = .ok v ∧ v.channels = Py_default_vector_channels ∧
      (v.length : Int) = if (4 : Int) = 0 then (Py_default_vector_length : Int) else 4) ∧
    Py_cvec_new .absent .absent =
      .ok ⟨none, Py_default_vector_length, Py_default_vector_channels⟩ ∧
    Py_default_vector_length = 1024 ∧ Py_default_vector_channels = 1 :=
  Py_cvec_new_zero_defaults 4 (by decide) (by simp [INT_MAX])

/-- C10 (as stated, refuted): the negative `length = -(2 ^ 31) - 1` is stored in
the `int` variable as `2 ^ 31 - 1`: `Py_cvec_new` returns an object of that
length and calling the type goes on to `Py_cvec_init`, which allocates the
native buffers.  And next to an argument that is not an integer, `length = -1`
fails in the parser, before any `ValueError` of this file. -/
theorem Py_cvec_new_negative_wrap_counterexample :
    Py_cvec_new (.int (-2147483649)) (.int 1) = .ok ⟨none, 2147483647, 1⟩ ∧
    (∃ h1 v, Py_cvecType_call ⟨[]⟩ (.int (-2147483649)) (.int 1) = (h1, .ok v) ∧
      v.length = 2147483647 ∧ h1 ≠ ⟨[]⟩) ∧
    Py_cvec_new (.int (-1)) .other = .error Err.failure :=
  ⟨by rfl,
    ⟨⟨[8589934588, 8589934588]⟩,
      ⟨some ⟨2147483647, 1, [⟨0, 0⟩], [some ⟨1, 0⟩]⟩, 2147483647, 1⟩,
      by rfl, by rfl, by decide⟩,
    by rfl⟩

/-- C10 (amended): `Py_cvec_new` with a negative `length` or a negative
`channels` that fits a C `int` (at least `-(2 ^ 31)`), whatever the other
argument, returns no object, and calling the type then stops before
`Py_cvec_init`: it reports the same error and the heap of sample buffers is
left as it was; the error is a `ValueError` whenever the other argument is an
integer or is not given (otherwise the parser has already failed). -/
theorem Py_cvec_new_negative (h : Heap) (n : Int) (arg : PyArg)
    (hmin : INT_MIN ≤ n) (hneg : n < 0) :
    (∃ e, Py_cvec_new (.int n) arg = .error e ∧
      Py_cvecType_call h (.int n) arg = (h, .error e) ∧
      (arg ≠ .other → ∃ msg, e = Err.raised PyExc.ValueError msg)) ∧
    (∃ e, Py_cvec_new arg (.int n) = .error e ∧
      Py_cvecType_call h arg (.int n) = (h, .error e) ∧
      (arg ≠ .other → ∃ msg, e = Err.raised PyExc.ValueError msg)) := by
  have hmax : n ≤ INT_MAX := by
    unfold INT_MAX
    omega
  have call : ∀ (la ca : PyArg) (e : Err), Py_cvec_new la ca = .error e →
      Py_cvecType_call h la ca = (h, .error e) := by
    intro la ca e he
    unfold Py_cvecType_call
    rw [he]
  by_cases hother : arg = .other
  · have hl := Py_cvec_new_of_other (.int n) arg (Or.inr hother)
    have hr := Py_cvec_new_of_other arg (.int n) (Or.inl hother)
    exact ⟨⟨_, hl, call _ _ _ hl, fun hne => absurd hother hne⟩,
      ⟨_, hr, call _ _ _ hr, fun hne => absurd hother hne⟩⟩
  · constructor
    · obtain ⟨c, hp⟩ := PyArg_ParseTupleAndKeywords_left hmin hmax arg hother
      have hnew := Py_cvec_new_of_neg_length _ _ n c hp hneg
      exact ⟨_, hnew, call _ _ _ hnew, fun _ => ⟨_, rfl⟩⟩
    · obtain ⟨l, hp⟩ := PyArg_ParseTupleAndKeywords_right hmin hmax arg hother
      by_cases hl : l < 0
      · have hnew := Py_cvec_new_of_neg_length _ _ l n hp hl
        exact ⟨_, hnew, call _ _ _ hnew, fun _ => ⟨_, rfl⟩⟩
      · have hnew := Py_cvec_new_of_neg_channels _ _ l n hp (not_lt.mp hl) hneg
        exact ⟨_, hnew, call _ _ _ hnew, fun _ => ⟨_, rfl⟩⟩

/-- Witness of C10 (amended) at `-1` next to the integer 2, on a heap holding
one buffer: a `ValueError` in either position, and the heap is unchanged. -/
theorem Py_cvec_new_negative_witness :
    (∃ msg, Py_cvecType_call ⟨[16]⟩ (.int (-1)) (.int 2) =
      (⟨[16]⟩, .error (Err.raised PyExc.ValueError msg))) ∧
    (∃ msg, Py_cvecType_call ⟨[16]⟩ (.int 2) (.int (-1)) =
      (⟨[16]⟩, .error (Err.raised PyExc.ValueError msg))) :=
  match Py_cvec_new_negative ⟨[16]⟩ (-1) (.int 2) (by simp [INT_MIN]) (by decide) with
  | ⟨⟨_, _, hcl, hel⟩, ⟨_, _, hcr, her⟩⟩ =>
    ⟨(hel (by decide)).elim fun msg hm => ⟨msg, by rw [hcl, hm]⟩,
      (her (by decide)).elim fun msg hm => ⟨msg, by rw [hcr, hm]⟩⟩

/-! ## Channel access -/

/-- C4: for every vector `v` and integer `index`, `Py_cvec_getitem v index`
fails with an `IndexError` if and only if `index < 0` or `index ≥ v.channels`,
in particular for `-1` and for `v.channels`; for every other index, on a valid
vector, it succeeds and returns a rank-1 view over `norm[index]` of `v.length`
elements. -/
theorem Py_cvec_getitem_range (v : Py_cvec) (index : Int) :
    ((∃ msg, Py_cvec_getitem v index = .error (Err.raised PyExc.IndexError msg)) ↔
      (index < 0 ∨ index ≥ (v.channels : Int))) ∧
    (∃ msg, Py_cvec_getitem v (-1) = .error (Err.raised PyExc.IndexError msg)) ∧
    (∃ msg, Py_cvec_getitem v (v.channels : Int) =
      .error (Err.raised PyExc.IndexError msg)) ∧
    (v.valid → ¬ (index < 0 ∨ index ≥ (v.channels : Int)) →
      ∃ c row a, v.o = some c ∧ c.norm[index.toNat]? = some row ∧
        Py_cvec_getitem v index = .ok a ∧ a.data = row ∧ PyArray_NDIM a = 1 ∧
        PyArray_SIZE a = v.length) := by
  have out : ∀ j : Int, (j < 0 ∨ j ≥ (v.channels : Int)) →
      Py_cvec_getitem v j = .error (Err.raised PyExc.IndexError "no such channel") := by
    intro j hj
    unfold Py_cvec_getitem
    simp only [hj, if_true]
  refine ⟨⟨?_, fun hj => ⟨_, out index hj⟩⟩, ⟨_, out (-1) (Or.inl (by decide))⟩,
    ⟨_, out _ (Or.inr le_rfl)⟩, ?_⟩
  · rintro ⟨msg, hmsg⟩
    by_contra hj
    unfold Py_cvec_getitem at hmsg
    simp only [hj, if_false] at hmsg
    cases ho : v.o with
    | none => simp [ho] at hmsg
    | some c =>
      simp only [ho] at hmsg
      cases hrow : c.norm[index.toNat]? with
      | none => simp [hrow] at hmsg
      | some row => simp [hrow] at hmsg
  · intro hv hj
    obtain ⟨c, row, ho, hrow, hget⟩ :=
      Py_cvec_getitem_of_valid v hv index (by omega) (by omega)
    have hview := PyArray_SimpleNewFromData_view v.length row
    exact ⟨c, row, _, ho, hrow, hget, hview.2.2.1, hview.1, hview.2.1⟩

/-- Witness of C4: on a valid vector of 2 channels and length 4, index 1 is
served with a view over `norm[1]` of 4 elements. -/
theorem Py_cvec_getitem_range_witness :
    ∃ c row a,
      (⟨some ⟨4, 2, [⟨0, 0⟩, ⟨1, 0⟩], [none, none]⟩, 4, 2⟩ : Py_cvec).o = some c ∧
      c.norm[(1 : Int).toNat]? = some row ∧
      Py_cvec_getitem ⟨some ⟨4, 2, [⟨0, 0⟩, ⟨1, 0⟩], [none, none]⟩, 4, 2⟩ 1 = .ok a ∧
      a.data = row ∧ PyArray_NDIM a = 1 ∧
      PyArray_SIZE a = (⟨some ⟨4, 2, [⟨0, 0⟩, ⟨1, 0⟩], [none, none]⟩, 4, 2⟩ : Py_cvec).length :=
  (Py_cvec_getitem_range ⟨some ⟨4, 2, [⟨0, 0⟩, ⟨1, 0⟩], [none, none]⟩, 4, 2⟩ 1).2.2.2
    (by decide) (by decide)

/-- C6: for every vector `v`, index and array `arr`: if the index is outside
`[0, v.channels)`, or `arr` is not of rank 1, or the size of `arr` differs from
`v.length`, then `Py_cvec_setitem` returns an error, an `IndexError` exactly
when the index is out of range and a `ValueError` otherwise, and the vector
after the call is the vector before it: every `norm` row, `length` and
`channels` are unchanged.  More generally, whatever the object assigned, a call
that does not succeed leaves the vector as it was. -/
theorem Py_cvec_setitem_error_unchanged (np : NumpyConversions)
    (v : Py_cvec) (index : Int) (arr : PyArrayObject)
    (hbad : (index < 0 ∨ index ≥ (v.channels : Int)) ∨
      PyArray_NDIM arr ≠ 1 ∨ PyArray_SIZE arr ≠ v.length) :
    (∃ exc msg, Py_cvec_setitem np v index (.array arr) = (v, .error (Err.raised exc msg)) ∧
      (exc = PyExc.IndexError ↔ (index < 0 ∨ index ≥ (v.channels : Int))) ∧
      (exc = PyExc.ValueError ↔ ¬ (index < 0 ∨ index ≥ (v.channels : Int)))) ∧
    (∀ o : PyObject, (Py_cvec_setitem np v index o).2 ≠ .ok () →
      (Py_cvec_setitem np v index o).1 = v) := by
  refine ⟨?_, fun o => (Py_cvec_setitem_frame np v index o).2.2⟩
  by_cases hidx : index < 0 ∨ index ≥ (v.channels : Int)
  · refine ⟨PyExc.IndexError, "no such channel", ?_, by simp [hidx], by simp [hidx]⟩
    unfold Py_cvec_setitem
    simp only [hidx, if_true]
  · have hshape := hbad.resolve_left hidx
    cases hconv : PyArray_FROM_OT np (.array arr) NPY_FLOAT with
    | none =>
      refine ⟨PyExc.ValueError, "should be an array of float", ?_, by simp [hidx],
        by simp [hidx]⟩
      unfold Py_cvec_setitem
      simp only [hidx, if_false, hconv]
    | some r =>
      have hdims := PyArray_FROM_OT_dimensions np arr r NPY_FLOAT hconv
      have hnd_eq : PyArray_NDIM r = PyArray_NDIM arr := by
        unfold PyArray_NDIM
        rw [hdims]
      have hsz_eq : PyArray_SIZE r = PyArray_SIZE arr := by
        unfold PyArray_SIZE
        rw [hdims]
      by_cases hnd : PyArray_NDIM r ≠ 1
      · refine ⟨PyExc.ValueError, "should be a one-dimensional array", ?_, by simp [hidx],
          by simp [hidx]⟩
        unfold Py_cvec_setitem
        simp only [hidx, if_false, hconv]
        rw [if_pos hnd]
      · have hsz : PyArray_SIZE r ≠ v.length := by
          rw [hsz_eq]
          exact hshape.resolve_left (by rw [← hnd_eq]; exact hnd)
        have hsz2 : (PyArray_SIZE r : Int) ≠ (v.length : Int) := by exact_mod_cast hsz
        refine ⟨PyExc.ValueError, "should be an array of same length as target cvec", ?_,
          by simp [hidx], by simp [hidx]⟩
        unfold Py_cvec_setitem
        simp only [hidx, if_false, hconv]
        rw [if_neg hnd, if_pos hsz2]

/-- Witness of C6: a rank-1 `NPY_FLOAT` array of 3 elements assigned to
channel 0 of a vector of length 2 raises a `ValueError` and returns the vector
unchanged. -/
theorem Py_cvec_setitem_error_unchanged_witness :
    ∃ msg,
      Py_cvec_setitem numpy_refusing
          ⟨some ⟨2, 1, [⟨0, 0⟩], [none]⟩, 2, 1⟩ 0 (.array ⟨⟨7, 0⟩, [3], [4], NPY_FLOAT⟩) =
        (⟨some ⟨2, 1, [⟨0, 0⟩], [none]⟩, 2, 1⟩, .error (Err.raised PyExc.ValueError msg)) :=
  match (Py_cvec_setitem_error_unchanged numpy_refusing
    ⟨some ⟨2, 1, [⟨0, 0⟩], [none]⟩, 2, 1⟩ 0 ⟨⟨7, 0⟩, [3], [4], NPY_FLOAT⟩
    (Or.inr (Or.inr (by decide)))).1 with
  | ⟨_, msg, hset, _, hval⟩ => ⟨msg, by rw [hset, hval.mpr (by decide)]⟩

/-! ## Construction from an array -/

/-- C2: for every array, `PyAubio_ArrayToCvec` fails with a `ValueError` and
produces no vector whenever the rank is 0, the rank is greater than 2, the
element type is not a floating-point kind, or, with casting disabled, the
element type is a float other than `AUBIO_FLOAT`; and it succeeds, under either
setting of the casting switch, for every array of rank 1 or 2 of type
`AUBIO_FLOAT`. -/
theorem PyAubio_ArrayToCvec_errors (cast : Bool) (np : NumpyConversions) (a : PyArrayObject) :
    ((PyArray_NDIM a = 0 ∨ PyArray_NDIM a > 2 ∨ PyArray_ISFLOAT a = false) →
      ∃ msg, PyAubio_ArrayToCvec cast np (.array a) =
        .error (Err.raised PyExc.ValueError msg)) ∧
    ((PyArray_ISFLOAT a = true ∧ PyArray_TYPE a ≠ AUBIO_FLOAT) →
      ∃ msg, PyAubio_ArrayToCvec false np (.array a) =
        .error (Err.raised PyExc.ValueError msg)) ∧
    (((PyArray_NDIM a = 1 ∨ PyArray_NDIM a = 2) ∧ PyArray_TYPE a = AUBIO_FLOAT) →
      ∃ v, PyAubio_ArrayToCvec cast np (.array a) = .ok v) := by
  refine ⟨?_, ?_, ?_⟩
  · intro hbad
    unfold PyAubio_ArrayToCvec
    by_cases h0 : PyArray_NDIM a = 0
    · exact ⟨"input array is a scalar", by simp [h0]⟩
    by_cases h2 : PyArray_NDIM a > 2
    · exact ⟨"input array has more than two dimensions", by simp [h0, h2]⟩
    have hfl : PyArray_ISFLOAT a = false := by
      rcases hbad with hb | hb | hb
      · exact absurd hb h0
      · exact absurd hb h2
      · exact hb
    exact ⟨"input array should be float", by simp [h0, h2, hfl]⟩
  · rintro ⟨hfl, hty⟩
    unfold PyAubio_ArrayToCvec
    by_cases h0 : PyArray_NDIM a = 0
    · exact ⟨"input array is a scalar", by simp [h0]⟩
    by_cases h2 : PyArray_NDIM a > 2
    · exact ⟨"input array has more than two dimensions", by simp [h0, h2]⟩
    exact ⟨"input array should be float32", by simp [h0, h2, hfl, hty]⟩
  · rintro ⟨hnd, hty⟩
    exact ⟨_, PyAubio_ArrayToCvec_native cast np a hnd hty⟩

/-- Witness of C2: a scalar, a rank-3 array, an integer array and (casting
disabled) a double array are refused; a rank-2 `NPY_FLOAT` array is accepted. -/
theorem PyAubio_ArrayToCvec_errors_witness :
    (∃ msg, PyAubio_ArrayToCvec true numpy_refusing
        (.array ⟨⟨7, 0⟩, [], [], NPY_FLOAT⟩) = .error (Err.raised PyExc.ValueError msg)) ∧
    (∃ msg, PyAubio_ArrayToCvec true numpy_refusing
        (.array ⟨⟨7, 0⟩, [1, 2, 3], [24, 12, 4], NPY_FLOAT⟩) =
      .error (Err.raised PyExc.ValueError msg)) ∧
    (∃ msg, PyAubio_ArrayToCvec true numpy_refusing
        (.array ⟨⟨7, 0⟩, [3], [4], NPY_INT⟩) = .error (Err.raised PyExc.ValueError msg)) ∧
    (∃ msg, PyAubio_ArrayToCvec false numpy_refusing
        (.array ⟨⟨7, 0⟩, [3], [8], NPY_DOUBLE⟩) = .error (Err.raised PyExc.ValueError msg)) ∧
    (∃ v, PyAubio_ArrayToCvec false numpy_refusing
        (.array ⟨⟨7, 0⟩, [2, 3], [12, 4], NPY_FLOAT⟩) = .ok v) :=
  ⟨(PyAubio_ArrayToCvec_errors true numpy_refusing ⟨⟨7, 0⟩, [], [], NPY_FLOAT⟩).1 (Or.inl (by decide)),
    (PyAubio_ArrayToCvec_errors true numpy_refusing ⟨⟨7, 0⟩, [1, 2, 3], [24, 12, 4], NPY_FLOAT⟩).1
      (Or.inr (Or.inl (by decide))),
    (PyAubio_ArrayToCvec_errors true numpy_refusing ⟨⟨7, 0⟩, [3], [4], NPY_INT⟩).1
      (Or.inr (Or.inr (by decide))),
    (PyAubio_ArrayToCvec_errors true numpy_refusing ⟨⟨7, 0⟩, [3], [8], NPY_DOUBLE⟩).2.1
      ⟨by decide, by decide⟩,
    (PyAubio_ArrayToCvec_errors false numpy_refusing ⟨⟨7, 0⟩, [2, 3], [12, 4], NPY_FLOAT⟩).2.2
      ⟨Or.inr (by decide), by decide⟩⟩

/-- C1 (as stated, refuted): a rank-1 `NPY_FLOAT` array of `2 ^ 32` elements is
accepted and the resulting vector has length 0, not the number of elements of
the array. -/
theorem PyAubio_ArrayToCvec_oversize_counterexample :
    ∃ v, PyAubio_ArrayToCvec false numpy_refusing
        (.array ⟨⟨7, 0⟩, [2 ^ 32], [4], NPY_FLOAT⟩) = .ok v ∧
      PyArray_NDIM ⟨⟨7, 0⟩, [2 ^ 32], [4], NPY_FLOAT⟩ = 1 ∧
      v.length = 0 ∧
      v.length ≠ PyArray_SIZE ⟨⟨7, 0⟩, [2 ^ 32], [4], NPY_FLOAT⟩ :=
  ⟨⟨some ⟨0, 1, [⟨7, 0⟩], [none]⟩, 0, 1⟩, by rfl, by rfl, by rfl, by decide⟩

/-- C1 (amended): for every array accepted by `PyAubio_ArrayToCvec` whose
dimensions are all below `2 ^ 32` (they fit `uint_t`): if the array has rank 1
the vector has `channels = 1` and `length` = the number of elements; if it has
rank 2 the vector has `channels` = dimension 0 and `length` = dimension 1; in
both cases the native struct's `length` and `channels` equal the wrapper's. -/
theorem PyAubio_ArrayToCvec_shape (cast : Bool) (np : NumpyConversions) (a : PyArrayObject)
    (v : Py_cvec) (hacc : PyAubio_ArrayToCvec cast np (.array a) = .ok v)
    (hfit : ∀ d ∈ a.dimensions, d < 2 ^ 32) :
    (PyArray_NDIM a = 1 → v.channels = 1 ∧ v.length = PyArray_SIZE a) ∧
    (PyArray_NDIM a = 2 → v.channels = PyArray_DIM a 0 ∧ v.length = PyArray_DIM a 1) ∧
    ∃ c, v.o = some c ∧ c.length = v.length ∧ c.channels = v.channels := by
  have hshape := Py_cvec_shape_of_accepted cast np a v hacc hfit
  obtain ⟨-, array, -, hv⟩ := PyAubio_ArrayToCvec_accepted cast np a v hacc
  subst hv
  exact ⟨hshape.1, hshape.2, _, rfl, rfl, rfl⟩

/-- Witness of C1 (amended): a `2 × 3` double array, cast by numpy into a new
array at block 9, gives 2 channels of length 3, in the wrapper and in the
native struct. -/
theorem PyAubio_ArrayToCvec_shape_witness :
    PyAubio_ArrayToCvec true numpy_casting
        (.array ⟨⟨7, 0⟩, [2, 3], [24, 8], NPY_DOUBLE⟩) =
      .ok ⟨some ⟨3, 2, [⟨9, 0⟩, ⟨9, 12⟩], [none, none]⟩, 3, 2⟩ ∧
    ((⟨some ⟨3, 2, [⟨9, 0⟩, ⟨9, 12⟩], [none, none]⟩, 3, 2⟩ : Py_cvec).channels =
        PyArray_DIM ⟨⟨7, 0⟩, [2, 3], [24, 8], NPY_DOUBLE⟩ 0 ∧
      (⟨some ⟨3, 2, [⟨9, 0⟩, ⟨9, 12⟩], [none, none]⟩, 3, 2⟩ : Py_cvec).length =
        PyArray_DIM ⟨⟨7, 0⟩, [2, 3], [24, 8], NPY_DOUBLE⟩ 1) ∧
    ∃ c, (⟨some ⟨3, 2, [⟨9, 0⟩, ⟨9, 12⟩], [none, none]⟩, 3, 2⟩ : Py_cvec).o = some c ∧
      c.length = (⟨some ⟨3, 2, [⟨9, 0⟩, ⟨9, 12⟩], [none, none]⟩, 3, 2⟩ : Py_cvec).length ∧
      c.channels =
        (⟨some ⟨3, 2, [⟨9, 0⟩, ⟨9, 12⟩], [none, none]⟩, 3, 2⟩ : Py_cvec).channels :=
  ⟨by rfl,
    (PyAubio_ArrayToCvec_shape true numpy_casting ⟨⟨7, 0⟩, [2, 3], [24, 8], NPY_DOUBLE⟩
      ⟨some ⟨3, 2, [⟨9, 0⟩, ⟨9, 12⟩], [none, none]⟩, 3, 2⟩ (by rfl) (by decide)).2.1
      (by decide),
    (PyAubio_ArrayToCvec_shape true numpy_casting ⟨⟨7, 0⟩, [2, 3], [24, 8], NPY_DOUBLE⟩
      ⟨some ⟨3, 2, [⟨9, 0⟩, ⟨9, 12⟩], [none, none]⟩, 3, 2⟩ (by rfl) (by decide)).2.2⟩

/-- C3 (as stated, refuted): for the rank-1 `NPY_FLOAT` array of 2 elements
with a stride of 8 bytes (every other sample of a buffer), the array returned
by `PyAubio_CvecToArray` after `PyAubio_ArrayToCvec` reads its element 1 at
byte 4, the array itself at byte 8; and for a rank-1 `NPY_FLOAT` array of
`2 ^ 32` elements the array returned has 0 elements. -/
theorem PyAubio_roundtrip_counterexample :
    (∃ v r, PyAubio_ArrayToCvec false numpy_refusing
          (.array ⟨⟨7, 0⟩, [2], [8], NPY_FLOAT⟩) = .ok v ∧
      PyAubio_CvecToArray numpy_refusing v = .ok r ∧
      PyArray_GETITEM1 (fun p => p.off) r 1 = 4 ∧
      PyArray_GETITEM1 (fun p => p.off) ⟨⟨7, 0⟩, [2], [8], NPY_FLOAT⟩ 1 = 8 ∧
      PyArray_GETITEM1 (fun p => p.off) r 1 ≠
        PyArray_GETITEM1 (fun p => p.off) ⟨⟨7, 0⟩, [2], [8], NPY_FLOAT⟩ 1) ∧
    (∃ v r, PyAubio_ArrayToCvec false numpy_refusing
          (.array ⟨⟨7, 0⟩, [2 ^ 32], [4], NPY_FLOAT⟩) = .ok v ∧
      PyAubio_CvecToArray numpy_refusing v = .ok r ∧
      PyArray_SIZE r = 0 ∧
      PyArray_SIZE r ≠ PyArray_SIZE ⟨⟨7, 0⟩, [2 ^ 32], [4], NPY_FLOAT⟩) :=
  ⟨⟨⟨some ⟨2, 1, [⟨7, 0⟩], [none]⟩, 2, 1⟩, ⟨⟨7, 0⟩, [2], [4], NPY_FLOAT⟩,
      by rfl, by rfl, by rfl, by rfl, by decide⟩,
    ⟨⟨some ⟨0, 1, [⟨7, 0⟩], [none]⟩, 0, 1⟩, ⟨⟨7, 0⟩, [0], [4], NPY_FLOAT⟩,
      by rfl, by rfl, by rfl, by decide⟩⟩

/-- C3 (amended): for every C-contiguous rank-1 array `A` of type `AUBIO_FLOAT`
(stride of 4 bytes) with fewer than `2 ^ 32` elements, `PyAubio_CvecToArray`
after `PyAubio_ArrayToCvec` returns a rank-1 array with the same number of
elements as `A`, over the same data pointer, equal to `A` element by element in
every memory. -/
theorem PyAubio_roundtrip (cast : Bool) (np : NumpyConversions) (A : PyArrayObject)
    (hty : PyArray_TYPE A = AUBIO_FLOAT) (hnd : PyArray_NDIM A = 1)
    (hst : PyArray_STRIDE A 0 = 4) (hsz : PyArray_SIZE A < 2 ^ 32) :
    ∃ v r, PyAubio_ArrayToCvec cast np (.array A) = .ok v ∧
      PyAubio_CvecToArray np v = .ok r ∧
      PyArray_NDIM r = 1 ∧ PyArray_SIZE r = PyArray_SIZE A ∧ r.data = A.data ∧
      ∀ (α : Type) (load : Ptr → α) (k : Nat),
        PyArray_GETITEM1 load r k = PyArray_GETITEM1 load A k := by
  have hview := PyArray_SimpleNewFromData_view (PyArray_SIZE A) A.data
  refine ⟨_, _, PyAubio_ArrayToCvec_native cast np A (Or.inl hnd) hty,
    PyAubio_CvecToArray_of_rank1 np A hnd hsz, hview.1, hview.2.1, hview.2.2.1, ?_⟩
  intro α load k
  unfold PyArray_GETITEM1
  rw [PyArray_GETPTR1_view]
  unfold PyArray_GETPTR1
  rw [hst]

/-- Witness of C3 (amended): a contiguous `NPY_FLOAT` array of 4 elements. -/
theorem PyAubio_roundtrip_witness :
    ∃ v r, PyAubio_ArrayToCvec false numpy_refusing
          (.array ⟨⟨7, 0⟩, [4], [4], NPY_FLOAT⟩) = .ok v ∧
      PyAubio_CvecToArray numpy_refusing v = .ok r ∧
      PyArray_NDIM r = 1 ∧ PyArray_SIZE r = PyArray_SIZE ⟨⟨7, 0⟩, [4], [4], NPY_FLOAT⟩ ∧
      r.data = (⟨⟨7, 0⟩, [4], [4], NPY_FLOAT⟩ : PyArrayObject).data ∧
      ∀ (α : Type) (load : Ptr → α) (k : Nat),
        PyArray_GETITEM1 load r k =
          PyArray_GETITEM1 load ⟨⟨7, 0⟩, [4], [4], NPY_FLOAT⟩ k :=
  PyAubio_roundtrip false numpy_refusing ⟨⟨7, 0⟩, [4], [4], NPY_FLOAT⟩ (by decide) (by decide)
    (by decide) (by decide)

/-! ## Rebinding a channel -/

/-- C5 (as stated, refuted): assigning to channel 0 of a vector of length 2 the
rank-1 `NPY_FLOAT` array of 2 elements with a stride of 8 bytes succeeds, but
`Py_cvec_getitem` then reads element 1 at byte 4, where the array has its
element 1 at byte 8. -/
theorem Py_cvec_setitem_strided_counterexample :
    ∃ v1 a,
      Py_cvec_setitem numpy_refusing
          ⟨some ⟨2, 1, [⟨0, 0⟩], [none]⟩, 2, 1⟩ 0
          (.array ⟨⟨7, 0⟩, [2], [8], NPY_FLOAT⟩) = (v1, .ok ()) ∧
      Py_cvec_getitem v1 0 = .ok a ∧
      PyArray_GETITEM1 (fun p => p.off) a 1 = 4 ∧
      PyArray_GETITEM1 (fun p => p.off) ⟨⟨7, 0⟩, [2], [8], NPY_FLOAT⟩ 1 = 8 ∧
      PyArray_GETITEM1 (fun p => p.off) a 1 ≠
        PyArray_GETITEM1 (fun p => p.off) ⟨⟨7, 0⟩, [2], [8], NPY_FLOAT⟩ 1 :=
  ⟨⟨some ⟨2, 1, [⟨7, 0⟩], [none]⟩, 2, 1⟩, ⟨⟨7, 0⟩, [2], [4], NPY_FLOAT⟩,
    by rfl, by rfl, by rfl, by rfl, by decide⟩

/-- C5 (amended): for every valid vector `v`, every index `i` in
`[0, v.channels)` and every rank-1 `NPY_FLOAT` array `arr` whose size equals
`v.length`, `Py_cvec_setitem` succeeds; afterwards row `i` of `norm` is the data
pointer of `arr`, every other row, `length` and `channels` are unchanged, and
`Py_cvec_getitem v i` returns a rank-1 view of `v.length` elements at that
pointer; when `arr` is C-contiguous (stride of 4 bytes) the view reads the
values of `arr`, element by element, in every memory. -/
theorem Py_cvec_setitem_rebinds (np : NumpyConversions)
    (v : Py_cvec) (i : Int) (arr : PyArrayObject)
    (hv : v.valid) (hi0 : 0 ≤ i) (hi1 : i < (v.channels : Int))
    (hty : arr.type_num = NPY_FLOAT) (hnd : PyArray_NDIM arr = 1)
    (hsz : PyArray_SIZE arr = v.length) :
    ∃ c c1 v1 a, v.o = some c ∧
      Py_cvec_setitem np v i (.array arr) = (v1, .ok ()) ∧ v1.o = some c1 ∧
      v1.length = v.length ∧ v1.channels = v.channels ∧
      c1.norm[i.toNat]? = some arr.data ∧
      (∀ j : Nat, j ≠ i.toNat → c1.norm[j]? = c.norm[j]?) ∧
      Py_cvec_getitem v1 i = .ok a ∧ a.data = arr.data ∧
      PyArray_NDIM a = 1 ∧ PyArray_SIZE a = PyArray_SIZE arr ∧
      (PyArray_STRIDE arr 0 = 4 →
        ∀ (α : Type) (load : Ptr → α) (k : Nat),
          PyArray_GETITEM1 load a k = PyArray_GETITEM1 load arr k) := by
  have hv0 := hv
  unfold Py_cvec.valid at hv0
  cases ho : v.o with
  | none => simp [ho] at hv0
  | some c =>
    simp only [ho] at hv0
    have hlt : i.toNat < c.norm.length := by
      rw [hv0]
      omega
    have hset := Py_cvec_setitem_ok np v c i arr ho hv0 hi0 hi1 hty hnd hsz
    have hcond : ¬ (i < 0 ∨ i ≥ (v.channels : Int)) := by omega
    have hrow : (c.norm.set i.toNat arr.data)[i.toNat]? = some arr.data := by
      simp [hlt]
    have hview := PyArray_SimpleNewFromData_view v.length arr.data
    refine ⟨c, { c with norm := c.norm.set i.toNat arr.data }, _,
      PyArray_SimpleNewFromData 1 [v.length, 1] NPY_FLOAT arr.data,
      rfl, hset, rfl, rfl, rfl, hrow, ?_, ?_, hview.2.2.1, hview.1, ?_, ?_⟩
    · intro j hj
      simp [List.getElem?_set, Ne.symm hj]
    · unfold Py_cvec_getitem
      simp only [hcond, if_false, hrow]
    · rw [hview.2.1, hsz]
    · intro hst α load k
      unfold PyArray_GETITEM1
      rw [PyArray_GETPTR1_view]
      unfold PyArray_GETPTR1
      rw [hst]

/-- Witness of C5 (amended): a contiguous `NPY_FLOAT` array of 2 elements
assigned to channel 1 of a vector of 2 channels and length 2; channel 1 then
reads the array, channel 0 is untouched. -/
theorem Py_cvec_setitem_rebinds_witness :
    ∃ c1 v1 a,
      Py_cvec_setitem numpy_refusing
          ⟨some ⟨2, 2, [⟨0, 0⟩, ⟨1, 0⟩], [none, none]⟩, 2, 2⟩ 1
          (.array ⟨⟨7, 0⟩, [2], [4], NPY_FLOAT⟩) = (v1, .ok ()) ∧
      v1.o = some c1 ∧ v1.length = 2 ∧ v1.channels = 2 ∧
      c1.norm[1]? = some ⟨7, 0⟩ ∧ c1.norm[0]? = some ⟨0, 0⟩ ∧
      Py_cvec_getitem v1 1 = .ok a ∧
      ∀ (α : Type) (load : Ptr → α) (k : Nat),
        PyArray_GETITEM1 load a k =
          PyArray_GETITEM1 load ⟨⟨7, 0⟩, [2], [4], NPY_FLOAT⟩ k :=
  match Py_cvec_setitem_rebinds numpy_refusing
    ⟨some ⟨2, 2, [⟨0, 0⟩, ⟨1, 0⟩], [none, none]⟩, 2, 2⟩ 1 ⟨⟨7, 0⟩, [2], [4], NPY_FLOAT⟩
    (by decide) (by decide) (by decide) (by decide) (by decide) (by decide) with
  | ⟨_, c1, v1, a, hc, hset, ho, hlen, hch, hrow, hother, hget, _, _, _, hread⟩ =>
    ⟨c1, v1, a, hset, ho, hlen, hch, hrow,
      (hother 0 (by decide)).trans (by cases hc; rfl), hget, hread (by decide)⟩

/-! ## Positivity of the dimensions -/

/-- C7 (as stated, refuted): the empty rank-1 `NPY_FLOAT` array is accepted by
`PyAubio_ArrayToCvec` and the vector returned has `length = 0`; so has the
vector returned for a rank-1 `NPY_FLOAT` array of `2 ^ 32` elements. -/
theorem PyAubio_ArrayToCvec_empty_counterexample :
    (∃ v, PyAubio_ArrayToCvec false numpy_refusing
        (.array ⟨⟨7, 0⟩, [0], [4], NPY_FLOAT⟩) = .ok v ∧
      v.length = 0 ∧ ¬ (0 < v.length)) ∧
    (∃ v, PyAubio_ArrayToCvec false numpy_refusing
        (.array ⟨⟨7, 0⟩, [2 ^ 32], [4], NPY_FLOAT⟩) = .ok v ∧
      v.length = 0 ∧ ¬ (0 < v.length)) :=
  ⟨⟨⟨some ⟨0, 1, [⟨7, 0⟩], [none]⟩, 0, 1⟩, by rfl, by rfl, by decide⟩,
    ⟨⟨some ⟨0, 1, [⟨7, 0⟩], [none]⟩, 0, 1⟩, by rfl, by rfl, by decide⟩⟩

/-- C7 (amended): every vector returned by `Py_cvec_new`, whatever the
arguments, has `length > 0` and `channels > 0`; every vector returned
by `PyAubio_ArrayToCvec` on an accepted array whose dimensions are all non-zero
and below `2 ^ 32` has `length > 0` and `channels > 0`; and `Py_cvec_setitem`
keeps `length` and `channels`, hence their positivity. -/
theorem Py_cvec_dimensions_positive (cast : Bool) (np : NumpyConversions) :
    (∀ (length_arg channels_arg : PyArg) (v : Py_cvec),
      Py_cvec_new length_arg channels_arg = .ok v → 0 < v.length ∧ 0 < v.channels) ∧
    (∀ (a : PyArrayObject) (v : Py_cvec),
      PyAubio_ArrayToCvec cast np (.array a) = .ok v →
      (∀ d ∈ a.dimensions, 0 < d ∧ d < 2 ^ 32) → 0 < v.length ∧ 0 < v.channels) ∧
    (∀ (v : Py_cvec) (i : Int) (o : PyObject),
      (Py_cvec_setitem np v i o).1.length = v.length ∧
      (Py_cvec_setitem np v i o).1.channels = v.channels ∧
      (0 < v.length ∧ 0 < v.channels →
        0 < (Py_cvec_setitem np v i o).1.length ∧
        0 < (Py_cvec_setitem np v i o).1.channels)) := by
  refine ⟨?_, ?_, ?_⟩
  · intro la ca v hnew
    cases hp : PyArg_ParseTupleAndKeywords la ca 0 0 with
    | none =>
      unfold Py_cvec_new at hnew
      rw [hp] at hnew
      cases hnew
    | some r =>
      obtain ⟨length, channels⟩ := r
      obtain ⟨⟨-, hl⟩, ⟨-, hc⟩⟩ := PyArg_ParseTupleAndKeywords_range la ca length channels hp
      have hl0 : 0 ≤ length := by
        by_contra hneg
        rw [Py_cvec_new_of_neg_length la ca length channels hp (by omega)] at hnew
        cases hnew
      have hc0 : 0 ≤ channels := by
        by_contra hneg
        rw [Py_cvec_new_of_neg_channels la ca length channels hp hl0 (by omega)] at hnew
        cases hnew
      rw [Py_cvec_new_of_nonneg la ca length channels hp hl0 hc0] at hnew
      injection hnew with hnew
      subst hnew
      have hL := int_to_uint_t_of_range hl0 hl
      have hC := int_to_uint_t_of_range hc0 hc
      constructor
      · by_cases hp : length > 0
        · simp only [hp, if_true]
          omega
        · simp only [hp, if_false]
          decide
      · by_cases hp : channels > 0
        · simp only [hp, if_true]
          omega
        · simp only [hp, if_false]
          decide
  · intro a v hacc hdims
    obtain ⟨hnd, -⟩ := PyAubio_ArrayToCvec_accepted cast np a v hacc
    have hfit : ∀ d ∈ a.dimensions, d < 2 ^ 32 := fun d hd => (hdims d hd).2
    obtain ⟨data, dims, strides, ty⟩ := a
    have hshape := Py_cvec_shape_of_accepted cast np _ v hacc hfit
    rcases hnd with hnd | hnd
    · obtain ⟨hch, hlen⟩ := hshape.1 hnd
      match dims, hnd, hdims, hlen with
      | [d], _, hdims, hlen =>
        have hd := (hdims d (by simp)).1
        simp [PyArray_SIZE, PyArray_MultiplyList] at hlen
        omega
    · obtain ⟨hch, hlen⟩ := hshape.2 hnd
      match dims, hnd, hdims, hch, hlen with
      | [d0, d1], _, hdims, hch, hlen =>
        have hd0 := (hdims d0 (by simp)).1
        have hd1 := (hdims d1 (by simp)).1
        simp [PyArray_DIM] at hch hlen
        omega
  · intro v i o
    have hframe := Py_cvec_setitem_frame np v i o
    refine ⟨hframe.1, hframe.2.1, ?_⟩
    rw [hframe.1, hframe.2.1]
    exact id

/-- Witness of C7 (amended): the constructor with defaults, a `2 × 3` array
and a failed assignment. -/
theorem Py_cvec_dimensions_positive_witness :
    (0 < (⟨none, 1024, 1⟩ : Py_cvec).length ∧ 0 < (⟨none, 1024, 1⟩ : Py_cvec).channels) ∧
    (0 < (⟨some ⟨3, 2, [⟨7, 0⟩, ⟨7, 12⟩], [none, none]⟩, 3, 2⟩ : Py_cvec).length ∧
      0 < (⟨some ⟨3, 2, [⟨7, 0⟩, ⟨7, 12⟩], [none, none]⟩, 3, 2⟩ : Py_cvec).channels) :=
  ⟨(Py_cvec_dimensions_positive false numpy_refusing).1 .absent .absent ⟨none, 1024, 1⟩
      (by rfl),
    (Py_cvec_dimensions_positive false numpy_refusing).2.1
      ⟨⟨7, 0⟩, [2, 3], [12, 4], NPY_FLOAT⟩
      ⟨some ⟨3, 2, [⟨7, 0⟩, ⟨7, 12⟩], [none, none]⟩, 3, 2⟩ (by rfl) (by decide)⟩

end PyCvec
